import Mathlib

/-!
Shallow embedding of the NFC-to-Klipper tag-event synchronization engine
(`src/nfc2klipper.py`) and the Moonraker web client
(`src/lib/moonraker_web_client.py`).

The engine's mutable function-attribute cache (`old_spool` / `old_filament`)
is modelled as an explicit `SyncState` record threaded through the calls.
The network side effect is modelled by passing the publisher as a function
returning `Except String Unit` (an `Except.error` models a raised exception);
each call's output records the list of publisher invocations (`PubCall`) and
the log messages emitted, so that "how many publish calls happened" is a
plain equation over lists.
-/

/-- An HTTP POST request as issued by `MoonrakerWebClient.set_spool_and_filament`:
its URL, its timeout in seconds, and the command list sent as the JSON body
(the body is the object with single key "commands" holding this list). -/
structure HttpPost where
  url : String
  timeout : Nat
  commands : List String
deriving Repr, DecidableEq

namespace MoonrakerWebClient

/-- The single g-code command built by `MoonrakerWebClient.set_spool_and_filament`
(the f-string at line 22 of `moonraker_web_client.py`). Note it mentions `gate`
and `spool` only. -/
def buildCommands (spool gate : Int) : List String :=
  ["MMU_GATE_MAP GATE=" ++ toString gate ++ " SPOOLID=" ++ toString spool]

/-- The request posted by `MoonrakerWebClient.set_spool_and_filament`. -/
def request (url : String) (spool gate : Int) : HttpPost :=
  { url := url ++ "/api/printer/command", timeout := 10,
    commands := buildCommands spool gate }

/-- `MoonrakerWebClient.set_spool_and_filament` from
`src/lib/moonraker_web_client.py`. `post` models `requests.post`, mapping a
request to the HTTP status code of its response. The result records the list
of requests actually posted (the code posts exactly one, with no retry) and
either `ok` or the `ValueError` raised when the status code is not 200. -/
def set_spool_and_filament (url : String) (spool filament gate : Int)
    (post : HttpPost → Nat) : List HttpPost × Except String Unit :=
  let req := request url spool gate
  let status := post req
  ([req],
    if status = 200 then Except.ok ()
    else Except.error ("Request to moonraker failed: status " ++ toString status))

end MoonrakerWebClient

/-- The engine's dedup cache: the function attributes
`set_spool_and_filament.old_spool` / `.old_filament` in `nfc2klipper.py`.
Each is `none` (Python `None`, "unset") or a concrete value. -/
structure SyncState where
  old_spool : Option Int
  old_filament : Option Int
deriving Repr, DecidableEq

/-- The cache at process start: both attributes are `None`
(lines 69-71 of `nfc2klipper.py`). -/
def initState : SyncState := ⟨none, none⟩

/-- One invocation of `moonraker.set_spool_and_filament(spool, filament, gate)`
by the engine, together with whether it succeeded. -/
structure PubCall where
  spool : Int
  filament : Int
  gate : Int
  ok : Bool
deriving Repr, DecidableEq

/-- The log messages the engine emits, in order. -/
inductive LogMsg where
  /-- "Read same spool & filament" -/
  | readSame
  /-- "Sending spool #s, filament #f to klipper" -/
  | sending (spool filament : Int)
  /-- "Did not find spool and filament records in tag" -/
  | noRecords
  /-- `app.logger.error(ex)` on a caught publisher exception -/
  | logError (e : String)
deriving Repr, DecidableEq

/-- Output of one engine call: the new cache state, the publisher invocations
made, and the log messages emitted. The engine function itself always returns
normally (this type is not `Except`): publisher exceptions are caught inside. -/
structure SyncOut where
  st : SyncState
  calls : List PubCall
  logs : List LogMsg
deriving Repr, DecidableEq

/-- `set_spool_and_filament` from `src/nfc2klipper.py` (lines 66-92), the
engine's `trySync`. `pub spool filament gate` models
`moonraker.set_spool_and_filament(spool, filament, 0)`: `Except.error e`
models a raised exception. Control flow of the source:
if both cached attributes equal the arguments, log and return (no call);
otherwise log "sending", set both attributes to `None` (pessimistic
invalidation), call moonraker with gate 0; on an exception log it and return
(attributes stay `None`); on success store the arguments in the attributes. -/
def set_spool_and_filament (pub : Int → Int → Int → Except String Unit)
    (st : SyncState) (spool filament : Int) : SyncOut :=
  if st.old_spool = some spool ∧ st.old_filament = some filament then
    { st := st, calls := [], logs := [LogMsg.readSame] }
  else
    match pub spool filament 0 with
    | Except.ok _ =>
        { st := { old_spool := some spool, old_filament := some filament },
          calls := [{ spool := spool, filament := filament, gate := 0, ok := true }],
          logs := [LogMsg.sending spool filament] }
    | Except.error e =>
        { st := { old_spool := none, old_filament := none },
          calls := [{ spool := spool, filament := filament, gate := 0, ok := false }],
          logs := [LogMsg.sending spool filament, LogMsg.logError e] }

/-- Python truthiness of a tag field: `None` and `0` are falsy, any other
integer is truthy. -/
def truthy : Option Int → Bool
  | none => false
  | some v => v ≠ 0

/-- `on_nfc_tag_present` from `src/nfc2klipper.py` (lines 123-134). `clear`
is the value of `should_clear_spool()`; `spool` / `filament` are the tag's
fields, `none` modelling Python `None` for an absent record. The source tests
`spool and filament` (truthiness, so 0 counts as absent) and replaces each
falsy field by 0 (`if not spool: spool = 0`), which for an `Option Int` is
exactly `Option.getD 0` since `some 0` is already 0. -/
def on_nfc_tag_present (clear : Bool) (pub : Int → Int → Int → Except String Unit)
    (st : SyncState) (spool filament : Option Int) : SyncOut :=
  let pre : List LogMsg :=
    if !clear && !(truthy spool && truthy filament) then [LogMsg.noRecords] else []
  if clear || (truthy spool && truthy filament) then
    let o := set_spool_and_filament pub st (spool.getD 0) (filament.getD 0)
    { st := o.st, calls := o.calls, logs := pre ++ o.logs }
  else
    { st := st, calls := [], logs := pre }

/-- `on_nfc_no_tag_present` from `src/nfc2klipper.py` (lines 137-140):
if `should_clear_spool()` then `set_spool_and_filament(0, 0)`, else nothing. -/
def on_nfc_no_tag_present (clear : Bool) (pub : Int → Int → Int → Except String Unit)
    (st : SyncState) : SyncOut :=
  if clear then set_spool_and_filament pub st 0 0
  else { st := st, calls := [], logs := [] }

/-- A TOML value as far as `should_clear_spool` cares: only its truthiness
is consulted (`if args["moonraker"].get("clear_spool"):`). -/
inductive TomlValue where
  | bool (b : Bool)
  | int (n : Int)
  | str (s : String)
deriving Repr, DecidableEq

/-- Python truthiness of a TOML value. -/
def TomlValue.truthy : TomlValue → Bool
  | .bool b => b
  | .int n => n ≠ 0
  | .str s => s ≠ ""

/-- `should_clear_spool` from `src/nfc2klipper.py` (lines 116-120). The
argument is `args["moonraker"].get("clear_spool")`: `none` when the key is
absent from the moonraker config section. The source returns `True` when the
looked-up value is truthy and `False` otherwise (including absence, since
`dict.get` yields `None`). -/
def should_clear_spool (clear_spool : Option TomlValue) : Bool :=
  match clear_spool with
  | some v => if v.truthy then true else false
  | none => false

/-- The observable actions of the `__main__` block, in program order. -/
inductive MainAction where
  /-- a publisher invocation made by the startup `set_spool_and_filament(0,0)` -/
  | publish (c : PubCall)
  /-- registering the two NFC callbacks (lines 148-149) -/
  | registerCallbacks
  /-- the reader adapter begins running: `thread.start()` (line 155) or the
  foreground `nfc_handler.run()` (line 167) -/
  | readerStart
  /-- `app.run(...)` (line 159) -/
  | webServerRun
deriving Repr, DecidableEq

/-- The `__main__` block of `src/nfc2klipper.py` (lines 143-167) up to and
including starting the reader (and web server when enabled): if
`should_clear_spool()` then `set_spool_and_filament(0, 0)` runs first, from
the initial cache state; then the callbacks are registered; then the reader
starts (in a daemon thread followed by the web server, or in the foreground
when the web server is disabled). Returns the cache state after startup and
the ordered action trace. -/
def mainStartup (clear disableWeb : Bool)
    (pub : Int → Int → Int → Except String Unit) : SyncState × List MainAction :=
  let o := if clear then set_spool_and_filament pub initState 0 0
           else { st := initState, calls := [], logs := [] }
  let tail := if disableWeb then [MainAction.registerCallbacks, MainAction.readerStart]
              else [MainAction.registerCallbacks, MainAction.readerStart,
                    MainAction.webServerRun]
  (o.st, o.calls.map MainAction.publish ++ tail)

/-- A publisher that always succeeds. -/
def pubOk : Int → Int → Int → Except String Unit := fun _ _ _ => Except.ok ()

/-- A publisher that always raises (models `requests.post` failing). -/
def pubFail : Int → Int → Int → Except String Unit :=
  fun _ _ _ => Except.error "connection failed"

/-- A publisher with a fixed outcome `ok`. -/
def outcomePub (ok : Bool) : Int → Int → Int → Except String Unit :=
  fun _ _ _ => if ok then Except.ok () else Except.error "connection failed"

/-- Whether an `Except` result is a success. -/
def exceptOk : Except String Unit → Bool
  | Except.ok _ => true
  | Except.error _ => false

/-- Run a sequence of engine `set_spool_and_filament` calls from a state.
Each request is `(spool, filament, ok)` where `ok` is the outcome the
publisher would have if it is invoked for that request. Returns the final
state and the concatenated publisher invocations. -/
def runCalls : SyncState → List (Int × Int × Bool) → SyncState × List PubCall
  | st, [] => (st, [])
  | st, (s, f, ok) :: rest =>
      let o := set_spool_and_filament (outcomePub ok) st s f
      let r := runCalls o.st rest
      (r.1, o.calls ++ r.2)

/-- Two consecutive publisher invocations never carry identical
`(spool, filament)` unless the first one failed. -/
def NoDupAfterSuccess (c₁ c₂ : PubCall) : Prop :=
  c₁.ok = true → ¬(c₁.spool = c₂.spool ∧ c₁.filament = c₂.filament)

/-! ### Helper lemmas -/

theorem set_spool_dedup (pub : Int → Int → Int → Except String Unit)
    (st : SyncState) (s f : Int)
    (h₁ : st.old_spool = some s) (h₂ : st.old_filament = some f) :
    set_spool_and_filament pub st s f = ⟨st, [], [LogMsg.readSame]⟩ := by
  simp [set_spool_and_filament, h₁, h₂]

theorem set_spool_publish_true (st : SyncState) (s f : Int)
    (h : ¬(st.old_spool = some s ∧ st.old_filament = some f)) :
    set_spool_and_filament (outcomePub true) st s f =
      ⟨⟨some s, some f⟩, [⟨s, f, 0, true⟩], [LogMsg.sending s f]⟩ := by
  simp [set_spool_and_filament, h, outcomePub]

theorem set_spool_publish_false (st : SyncState) (s f : Int)
    (h : ¬(st.old_spool = some s ∧ st.old_filament = some f)) :
    set_spool_and_filament (outcomePub false) st s f =
      ⟨⟨none, none⟩, [⟨s, f, 0, false⟩],
        [LogMsg.sending s f, LogMsg.logError "connection failed"]⟩ := by
  simp [set_spool_and_filament, h, outcomePub]

/-- After a successful publish of `(a, b)` the cache holds `(a, b)`, and any
later run can only begin its emitted calls with a pair different from
`(a, b)`: calls for `(a, b)` itself are deduped and leave the cache alone. -/
theorem runCalls_head_ne (a b : Int) :
    ∀ (reqs : List (Int × Int × Bool)) (c : PubCall),
      (runCalls ⟨some a, some b⟩ reqs).2.head? = some c →
      ¬(c.spool = a ∧ c.filament = b) := by
  intro reqs
  induction reqs with
  | nil => intro c h; simp [runCalls] at h
  | cons r rest ih =>
      obtain ⟨s, f, ok⟩ := r
      intro c h
      by_cases hsf : s = a ∧ f = b
      · rw [show (⟨some a, some b⟩ : SyncState) = ⟨some s, some f⟩ by
          rw [hsf.1, hsf.2]] at h
        simp only [runCalls, set_spool_dedup _ ⟨some s, some f⟩ s f rfl rfl] at h
        rw [show (⟨some s, some f⟩ : SyncState) = ⟨some a, some b⟩ by
          rw [hsf.1, hsf.2]] at h
        exact ih c h
      · have hne : ¬((⟨some a, some b⟩ : SyncState).old_spool = some s ∧
            (⟨some a, some b⟩ : SyncState).old_filament = some f) := by
          simp only [SyncState.mk.injEq, Option.some.injEq]
          intro hc
          exact hsf ⟨hc.1.symm, hc.2.symm⟩
        cases ok with
        | true =>
            simp only [runCalls, set_spool_publish_true _ s f hne,
              List.cons_append, List.nil_append, List.head?_cons,
              Option.some.injEq] at h
            subst h
            simpa using hsf
        | false =>
            simp only [runCalls, set_spool_publish_false _ s f hne,
              List.cons_append, List.nil_append, List.head?_cons,
              Option.some.injEq] at h
            subst h
            simpa using hsf

/-- Any run of engine calls, from any cache state, emits a publish trace in
which two consecutive invocations with identical `(spool, filament)` can only
occur when the first of them failed. -/
theorem runCalls_chain (reqs : List (Int × Int × Bool)) :
    ∀ st : SyncState, List.Chain' NoDupAfterSuccess (runCalls st reqs).2 := by
  induction reqs with
  | nil => intro st; simp [runCalls]
  | cons r rest ih =>
      obtain ⟨s, f, ok⟩ := r
      intro st
      by_cases hd : st.old_spool = some s ∧ st.old_filament = some f
      · simp only [runCalls, set_spool_dedup _ st s f hd.1 hd.2, List.nil_append]
        exact ih _
      · cases ok with
        | true =>
            simp only [runCalls, set_spool_publish_true st s f hd,
              List.cons_append, List.nil_append]
            rw [List.chain'_cons']
            refine ⟨?_, ih _⟩
            intro y hy _
            intro hc
            exact runCalls_head_ne s f rest y hy ⟨hc.1.symm, hc.2.symm⟩
        | false =>
            simp only [runCalls, set_spool_publish_false st s f hd,
              List.cons_append, List.nil_append]
            rw [List.chain'_cons']
            refine ⟨?_, ih _⟩
            intro y _ hok
            simp [NoDupAfterSuccess] at hok

/-! ### Claim theorems -/

/-- C1: calling the engine's `set_spool_and_filament` (trySync) twice in a row
with a successful publisher, from the process-start state, issues exactly one
publish call; and in any run of calls from the process-start state, the engine
never issues two consecutive publish calls with identical
`(spool, filament)` unless the first one failed. -/
theorem C1_dedup_invariant (s f : Int) :
    ((set_spool_and_filament pubOk initState s f).calls ++
      (set_spool_and_filament pubOk
        (set_spool_and_filament pubOk initState s f).st s f).calls =
      [⟨s, f, 0, true⟩]) ∧
    ∀ reqs : List (Int × Int × Bool),
      List.Chain' NoDupAfterSuccess (runCalls initState reqs).2 := by
  constructor
  · simp [set_spool_and_filament, initState, pubOk]
  · intro reqs
    exact runCalls_chain reqs initState

/-- C2: when the publisher raises, `set_spool_and_filament` logs the error,
leaves the cache unset (equal to the initial "unset" state), returns normally
(its output is a plain value), and a second identical call then issues a
second publish attempt rather than being deduped. -/
theorem C2_retry_after_failure (st : SyncState) (s f : Int)
    (h : ¬(st.old_spool = some s ∧ st.old_filament = some f)) :
    (set_spool_and_filament pubFail st s f).st = initState ∧
    (set_spool_and_filament pubFail st s f).calls = [⟨s, f, 0, false⟩] ∧
    (set_spool_and_filament pubFail st s f).logs =
      [LogMsg.sending s f, LogMsg.logError "connection failed"] ∧
    ∀ pub : Int → Int → Int → Except String Unit,
      (set_spool_and_filament pub
        (set_spool_and_filament pubFail st s f).st s f).calls =
        [⟨s, f, 0, exceptOk (pub s f 0)⟩] := by
  refine ⟨?_, ?_, ?_, ?_⟩
  · simp [set_spool_and_filament, pubFail, h, initState]
  · simp [set_spool_and_filament, pubFail, h]
  · simp [set_spool_and_filament, pubFail, h]
  · intro pub
    cases hp : pub s f 0 <;>
      simp [set_spool_and_filament, pubFail, h, hp, exceptOk]

theorem C2_retry_after_failure_witness :
    (¬(initState.old_spool = some 3 ∧ initState.old_filament = some 7)) ∧
    (set_spool_and_filament pubFail initState 3 7).st = initState ∧
    (set_spool_and_filament pubFail initState 3 7).calls = [⟨3, 7, 0, false⟩] ∧
    (set_spool_and_filament pubFail initState 3 7).logs =
      [LogMsg.sending 3 7, LogMsg.logError "connection failed"] ∧
    (set_spool_and_filament pubOk
      (set_spool_and_filament pubFail initState 3 7).st 3 7).calls =
      [⟨3, 7, 0, true⟩] :=
  have h : ¬(initState.old_spool = some 3 ∧ initState.old_filament = some 7) := by
    decide
  ⟨h, (C2_retry_after_failure initState 3 7 h).1,
    (C2_retry_after_failure initState 3 7 h).2.1,
    (C2_retry_after_failure initState 3 7 h).2.2.1,
    (C2_retry_after_failure initState 3 7 h).2.2.2 pubOk⟩

/-- C3 counterexample: with ClearPolicy false and both fields present as
spool = 0, filament = 7, the claim requires a publish attempt with (0, 7);
the code attempts no publish at all, because the truthiness test
`spool and filament` treats the present value 0 as absent. -/
theorem C3_counterexample :
    (on_nfc_tag_present false pubOk initState (some 0) (some 7)).calls = [] ∧
    (on_nfc_tag_present false pubOk initState (some 0) (some 7)).st =
      initState := by
  decide

/-- C3 amended: a publish is attempted iff ClearPolicy is true or both fields
are truthy (present AND nonzero); in that case the handler delegates to
`set_spool_and_filament` with each field defaulted to 0; otherwise it only
logs "no records" and does nothing else. -/
theorem C3_effective_values (clear : Bool)
    (pub : Int → Int → Int → Except String Unit) (st : SyncState)
    (spool filament : Option Int) :
    on_nfc_tag_present clear pub st spool filament =
      if clear || (truthy spool && truthy filament) then
        set_spool_and_filament pub st (spool.getD 0) (filament.getD 0)
      else ⟨st, [], [LogMsg.noRecords]⟩ := by
  cases clear <;> cases hts : truthy spool <;> cases htf : truthy filament <;>
    simp [on_nfc_tag_present, hts, htf]

/-- C4: with ClearPolicy false, a tag with spool = 5 and filament absent
produces no publish call; with ClearPolicy true, the same tag produces exactly
one publish call with arguments (5, 0). -/
theorem C4_partial_record (pub : Int → Int → Int → Except String Unit)
    (st : SyncState)
    (h : ¬(st.old_spool = some 5 ∧ st.old_filament = some 0)) :
    (on_nfc_tag_present false pub st (some 5) none).calls = [] ∧
    (on_nfc_tag_present true pub st (some 5) none).calls =
      [⟨5, 0, 0, exceptOk (pub 5 0 0)⟩] := by
  constructor
  · simp [on_nfc_tag_present, truthy]
  · cases hp : pub 5 0 0 <;>
      simp [on_nfc_tag_present, set_spool_and_filament, truthy, h, hp, exceptOk]

theorem C4_partial_record_witness :
    (¬(initState.old_spool = some 5 ∧ initState.old_filament = some 0)) ∧
    (on_nfc_tag_present false pubOk initState (some 5) none).calls = [] ∧
    (on_nfc_tag_present true pubOk initState (some 5) none).calls =
      [⟨5, 0, 0, true⟩] :=
  have h : ¬(initState.old_spool = some 5 ∧ initState.old_filament = some 0) := by
    decide
  ⟨h, (C4_partial_record pubOk initState h).1, (C4_partial_record pubOk initState h).2⟩

/-- C5: with ClearPolicy false, `on_nfc_no_tag_present` does nothing (no
publisher call, no state change, no log); with ClearPolicy true, it is exactly
a delegation to `set_spool_and_filament pub st 0 0`. -/
theorem C5_clear_on_absent (pub : Int → Int → Int → Except String Unit)
    (st : SyncState) :
    on_nfc_no_tag_present false pub st = ⟨st, [], []⟩ ∧
    on_nfc_no_tag_present true pub st = set_spool_and_filament pub st 0 0 := by
  constructor <;> simp [on_nfc_no_tag_present]

/-- C6: with ClearPolicy true, the startup trace begins with exactly one
publish action, carrying (0, 0) and gate 0, before the callbacks are
registered and before the reader starts; it appears for every publisher
outcome (never deduped, since the cache starts unset). -/
theorem C6_startup_clear (disableWeb : Bool)
    (pub : Int → Int → Int → Except String Unit) :
    (mainStartup true disableWeb pub).2 =
      MainAction.publish ⟨0, 0, 0, exceptOk (pub 0 0 0)⟩ ::
        MainAction.registerCallbacks :: MainAction.readerStart ::
        (if disableWeb then [] else [MainAction.webServerRun]) := by
  cases hp : pub 0 0 0 <;> cases disableWeb <;>
    simp [mainStartup, set_spool_and_filament, initState, hp, exceptOk]

/-- C7 counterexample: after a successful trySync(3, 7) the cache is (3, 7);
a subsequent trySync(3, 7) with a failing publisher is deduped — it makes no
publisher call at all — and leaves the cache at (3, 7), which is not unset,
contradicting the claim that the cache would then be Unset. -/
theorem C7_counterexample :
    (set_spool_and_filament pubOk initState 3 7).st = ⟨some 3, some 7⟩ ∧
    (set_spool_and_filament pubFail
      (set_spool_and_filament pubOk initState 3 7).st 3 7).st =
      ⟨some 3, some 7⟩ ∧
    (set_spool_and_filament pubFail
      (set_spool_and_filament pubOk initState 3 7).st 3 7).calls = [] ∧
    (⟨some 3, some 7⟩ : SyncState) ≠ ⟨none, none⟩ := by
  decide

/-- C7 amended: after a successful trySync(3, 7) the cache equals (3, 7);
a subsequent trySync(3, 7) is deduped regardless of the publisher — no
publish attempt is made and the cache remains (3, 7) — and a failed trySync
whose arguments differ from the cache (here (3, 8)) leaves the cache unset. -/
theorem C7_state_idempotence :
    (set_spool_and_filament pubOk initState 3 7).st = ⟨some 3, some 7⟩ ∧
    (∀ pub : Int → Int → Int → Except String Unit,
      set_spool_and_filament pub ⟨some 3, some 7⟩ 3 7 =
        ⟨⟨some 3, some 7⟩, [], [LogMsg.readSame]⟩) ∧
    (set_spool_and_filament pubFail ⟨some 3, some 7⟩ 3 8).st = ⟨none, none⟩ := by
  refine ⟨by decide, ?_, by decide⟩
  intro pub
  exact set_spool_dedup pub ⟨some 3, some 7⟩ 3 7 rfl rfl

/-- C8: the client posts exactly one request (no retry), to
`url ++ "/api/printer/command"`, with timeout 10 and the single MMU_GATE_MAP
command naming the gate and the spool; it returns normally exactly when the
response status is 200 and raises otherwise; and every publisher invocation
made by the engine carries gate 0. -/
theorem C8_wire_contract (url : String) (s f g : Int) (post : HttpPost → Nat)
    (pub : Int → Int → Int → Except String Unit) (st : SyncState) (s₂ f₂ : Int) :
    (MoonrakerWebClient.set_spool_and_filament url s f g post).1 =
      [⟨url ++ "/api/printer/command", 10,
        ["MMU_GATE_MAP GATE=" ++ toString g ++ " SPOOLID=" ++ toString s]⟩] ∧
    ((MoonrakerWebClient.set_spool_and_filament url s f g post).2 =
        Except.ok () ↔ post (MoonrakerWebClient.request url s g) = 200) ∧
    ((set_spool_and_filament pub st s₂ f₂).calls.all fun c => c.gate == 0) =
      true := by
  refine ⟨rfl, ?_, ?_⟩
  · by_cases hs : post (MoonrakerWebClient.request url s g) = 200 <;>
      simp [MoonrakerWebClient.set_spool_and_filament, hs]
  · by_cases h : st.old_spool = some s₂ ∧ st.old_filament = some f₂
    · simp [set_spool_and_filament, h]
    · cases hp : pub s₂ f₂ 0 <;> simp [set_spool_and_filament, h, hp]

/-- C9: the filament argument of `MoonrakerWebClient.set_spool_and_filament`
never influences what is sent to the remote endpoint: for any two filament
values the client's behaviour (requests posted and result) is identical. -/
theorem C9_filament_noninterference (url : String) (spool gate f₁ f₂ : Int)
    (post : HttpPost → Nat) :
    MoonrakerWebClient.set_spool_and_filament url spool f₁ gate post =
      MoonrakerWebClient.set_spool_and_filament url spool f₂ gate post := rfl

/-- C10: `should_clear_spool` returns false when the "clear_spool" key is
absent, and otherwise returns exactly the truthiness of the configured value:
true iff present and truthy; so ClearPolicy defaults to false. -/
theorem C10_clear_spool_default :
    should_clear_spool none = false ∧
    ∀ v : TomlValue, should_clear_spool (some v) = v.truthy := by
  refine ⟨rfl, ?_⟩
  intro v
  cases h : v.truthy <;> simp [should_clear_spool, h]
